import Mathlib

/-!
Verification development for the CommonClientDataSocket repository: a shallow
embedding of the WebSocket data broker (WebSocketDataServer.js), its storage
adapters, and the reconnecting client (WebSocketDataClient.js), followed by
theorems settling the specification claims.

Modelling conventions:
* JavaScript JSON documents are the inductive type JsValue.  Plain objects
  and Map instances are insertion-ordered association lists, matching the
  enumeration order of Object.entries and Map.forEach for string keys.
* Wall-clock timestamp fields (Date.now()) are omitted from envelopes and
  adapter results: they are nondeterministic clock reads and carry no
  behavioural content for the claims.
* The ReactNativeStorageAdapter stores JSON.stringify(value) strings; the
  model stores the document itself and uses the fact that every serialised
  JSON document is a nonempty (hence truthy) string.
* Property reads on plain JS objects consult the prototype chain: a key with
  no own property yields the inherited, truthy Object.prototype member for
  the names in objectPrototypeMembers (the protoMemberV constructor) and
  undefined otherwise.  Property writes create own properties; the special
  setter semantics of assigning to __proto__ is not modelled, so theorems
  about writes carry the hypothesis key ≠ "__proto__".  Map lookups
  (Map.get / Map.has) have no prototype chain and stay plain lookups.
-/

set_option autoImplicit false

/-- JavaScript values the broker handles: JSON documents exchanged on the
wire and held by adapters, plus the truthy non-JSON values produced by
reading an inherited Object.prototype member on a plain object (a built-in
function such as Object.prototype.constructor, or the prototype object
itself for __proto__), tagged by the member's name. -/
inductive JsValue where
  | nullV
  | boolV (b : Bool)
  | numV (n : Int)
  | strV (s : String)
  | arrV (elems : List JsValue)
  | objV (fields : List (String × JsValue))
  | protoMemberV (name : String)

mutual

/-- Structural equality of JSON documents (the JS === relation restricted to
the JSON fragment: no NaN, object identity replaced by structural equality,
which is what the broker's query matcher compares on scalars). -/
def JsValue.beq : JsValue → JsValue → Bool
  | .nullV, .nullV => true
  | .boolV a, .boolV b => a == b
  | .numV a, .numV b => a == b
  | .strV a, .strV b => a == b
  | .arrV xs, .arrV ys => JsValue.beqList xs ys
  | .objV xs, .objV ys => JsValue.beqObj xs ys
  | .protoMemberV a, .protoMemberV b => a == b
  | _, _ => false

/-- Pointwise equality of JSON arrays. -/
def JsValue.beqList : List JsValue → List JsValue → Bool
  | [], [] => true
  | x :: xs, y :: ys => JsValue.beq x y && JsValue.beqList xs ys
  | _, _ => false

/-- Pointwise equality of JSON object field lists. -/
def JsValue.beqObj : List (String × JsValue) → List (String × JsValue) → Bool
  | [], [] => true
  | (k1, v1) :: xs, (k2, v2) :: ys =>
      k1 == k2 && JsValue.beq v1 v2 && JsValue.beqObj xs ys
  | _, _ => false

end

instance : BEq JsValue := ⟨JsValue.beq⟩

/-- JavaScript truthiness of a JSON document (objects and arrays are always
truthy; 0, false, the empty string and null are falsy). -/
def JsValue.truthy : JsValue → Bool
  | .nullV => false
  | .boolV b => b
  | .numV n => n != 0
  | .strV s => s != ""
  | .arrV _ => true
  | .objV _ => true
  | .protoMemberV _ => true

/-- The JavaScript idiom x || null applied to a possibly-absent property:
a missing property (undefined) and any falsy value both yield null. -/
def jsOrNull : Option JsValue → JsValue
  | some v => if v.truthy then v else .nullV
  | none => .nullV

/-- Lookup in an insertion-ordered string-keyed map (JS object / Map). -/
def objGet {α : Type} (l : List (String × α)) (k : String) : Option α :=
  (l.find? (fun p => p.1 == k)).map (fun p => p.2)

/-- Update in an insertion-ordered map: an existing key keeps its position
(JS property update / Map.set), a new key is appended at the end. -/
def objSet {α : Type} : List (String × α) → String → α → List (String × α)
  | [], k, v => [(k, v)]
  | (k', v') :: rest, k, v =>
      if k' == k then (k', v) :: rest else (k', v') :: objSet rest k v

/-- Removal from an insertion-ordered map (JS delete / Map.delete). -/
def objDel {α : Type} (l : List (String × α)) (k : String) : List (String × α) :=
  l.filter (fun p => p.1 != k)

/-- JS Set.add on an insertion-ordered set: adding a present element is a
no-op, a new element is appended. -/
def setAdd {α : Type} [BEq α] (l : List α) (x : α) : List α :=
  if l.contains x then l else l ++ [x]

/-- JS Set.delete / Map.delete: removes the element if present. -/
def setDel {α : Type} [BEq α] (l : List α) (x : α) : List α :=
  l.filter (fun y => y != x)

/-- A JSON object / a collection of rows keyed by strings. -/
abbrev Obj := List (String × JsValue)

/-- A Map from collection name to collection object (the adapters' stores). -/
abbrev Store := List (String × Obj)

/-- The member names of Object.prototype: reading one of these on a plain
object that has no own property of that name yields an inherited truthy
value (a built-in function, or the prototype object for __proto__) instead
of undefined. -/
def objectPrototypeMembers : List String :=
  ["constructor", "hasOwnProperty", "isPrototypeOf", "propertyIsEnumerable",
   "toLocaleString", "toString", "valueOf",
   "__defineGetter__", "__defineSetter__", "__lookupGetter__", "__lookupSetter__",
   "__proto__"]

/-- The JS property read o[k] on a plain object: the own value when present,
the inherited Object.prototype member for prototype names, undefined (none)
otherwise. -/
def jsObjectRead (o : Obj) (k : String) : Option JsValue :=
  match objGet o k with
  | some v => some v
  | none =>
      if objectPrototypeMembers.contains k then some (.protoMemberV k) else none

/-- The options record passed to every adapter call; the only hint the
modelled adapters read is useIndexedDB (unknown hints are ignored). -/
structure StorageOptions where
  useIndexedDB : Bool := false
  deriving DecidableEq

/-- JS property access value[queryKey] on a JSON document: an own field of an
object, absent (undefined) otherwise. -/
def jsFieldGet : JsValue → String → Option JsValue
  | .objV fields, k => objGet fields k
  | _, _ => none

/-- The conjunctive field-equality predicate of every adapter's query:
Object.entries(query).every(([qk, qv]) => value[qk] === qv). -/
def matchesQuery (q : Obj) (row : JsValue) : Bool :=
  q.all (fun p =>
    match jsFieldGet row p.1 with
    | some w => JsValue.beq w p.2
    | none => false)

/-- The own enumerable fields contributed by spreading a value into an object
literal: objects contribute their fields, arrays and strings their indexed
elements, primitives nothing. -/
def jsSpreadFields : JsValue → Obj
  | .objV fields => fields
  | .arrV xs => xs.enum.map (fun p => (toString p.1, p.2))
  | .strV s => s.data.enum.map (fun p => (toString p.1, .strV (String.singleton p.2)))
  | _ => []

/-- The query result row literal \x7b key, ...value \x7d. -/
def spreadRecord (key : String) (v : JsValue) : JsValue :=
  .objV ((jsSpreadFields v).foldl (fun acc p => objSet acc p.1 p.2) [("key", .strV key)])

/-- JS String.prototype.startsWith (over the character list, which the
kernel can evaluate). -/
def strStartsWith (s pre : String) : Bool :=
  pre.data.isPrefixOf s.data

/-- Removes the first occurrence of pat from a character list (the list is
returned unchanged when pat does not occur). -/
def listReplaceFirst : List Char → List Char → List Char
  | [], _ => []
  | x :: xs, pat =>
      if pat.isPrefixOf (x :: xs) then (x :: xs).drop pat.length
      else x :: listReplaceFirst xs pat

/-- JS String.prototype.replace with a string pattern and an empty
replacement: removes only the first occurrence. -/
def replaceFirst (s pat : String) : String :=
  ⟨listReplaceFirst s.data pat.data⟩

/-- BrowserStorageAdapter: two stores, simulated localStorage and simulated
IndexedDB, selected by options.useIndexedDB. -/
structure BrowserStorageAdapter where
  localStorage : Store := []
  indexedDB : Store := []

namespace BrowserStorageAdapter

/-- options.useIndexedDB ? this.indexedDB : this.localStorage. -/
def storageFor (a : BrowserStorageAdapter) (options : StorageOptions) : Store :=
  if options.useIndexedDB then a.indexedDB else a.localStorage

/-- Writes back the selected store. -/
def withStorage (a : BrowserStorageAdapter) (options : StorageOptions) (st : Store) :
    BrowserStorageAdapter :=
  if options.useIndexedDB then { a with indexedDB := st } else { a with localStorage := st }

/-- get: (storage.get(collection) || \x7b\x7d)[key] || null.  The Map lookup
of the collection is proper, but the property read on the plain collection
object consults the prototype chain: a prototype-named key with no own entry
yields the inherited truthy member, which the || keeps, instead of null. -/
def get (a : BrowserStorageAdapter) (collection key : String) (options : StorageOptions) :
    JsValue :=
  let collectionData := (objGet (a.storageFor options) collection).getD []
  jsOrNull (jsObjectRead collectionData key)

/-- set: ensures the collection object exists, then assigns the key in place;
returns \x7b success: true, key \x7d (timestamp omitted, see header). -/
def set (a : BrowserStorageAdapter) (collection key : String) (value : JsValue)
    (options : StorageOptions) : JsValue × BrowserStorageAdapter :=
  let storage := a.storageFor options
  let storage := if (objGet storage collection).isSome then storage else objSet storage collection []
  let collectionData := (objGet storage collection).getD []
  let storage := objSet storage collection (objSet collectionData key value)
  (.objV [("success", .boolV true), ("key", .strV key)], a.withStorage options storage)

/-- delete: removes the key from the collection object when the collection
exists (a missing collection yields a temporary object whose mutation is
discarded); always returns \x7b success: true, deleted: key \x7d. -/
def delete (a : BrowserStorageAdapter) (collection key : String) (options : StorageOptions) :
    JsValue × BrowserStorageAdapter :=
  let result := JsValue.objV [("success", .boolV true), ("deleted", .strV key)]
  let storage := a.storageFor options
  match objGet storage collection with
  | some collectionData =>
      (result, a.withStorage options (objSet storage collection (objDel collectionData key)))
  | none => (result, a)

/-- query: filters the collection's entries by the conjunctive predicate and
maps each surviving (key, value) to \x7b key, ...value \x7d. -/
def query (a : BrowserStorageAdapter) (collection : String) (q : Obj)
    (options : StorageOptions) : JsValue :=
  let collectionData := (objGet (a.storageFor options) collection).getD []
  let results := collectionData.filter (fun kv => matchesQuery q kv.2)
  .arrV (results.map (fun kv => spreadRecord kv.1 kv.2))

end BrowserStorageAdapter

/-- ReactNativeStorageAdapter: a single Map keyed by collection:key holding
JSON.stringify(value); serialisation is modelled as the identity on JSON
documents (every serialised document is a nonempty, hence truthy, string). -/
structure ReactNativeStorageAdapter where
  storage : List (String × JsValue) := []

namespace ReactNativeStorageAdapter

/-- get: value ? JSON.parse(value) : null — a present entry is a nonempty
string, hence truthy. -/
def get (a : ReactNativeStorageAdapter) (collection key : String)
    (_options : StorageOptions) : JsValue :=
  match objGet a.storage (collection ++ ":" ++ key) with
  | some v => v
  | none => .nullV

/-- set: storage.set(fullKey, JSON.stringify(value)). -/
def set (a : ReactNativeStorageAdapter) (collection key : String) (value : JsValue)
    (_options : StorageOptions) : JsValue × ReactNativeStorageAdapter :=
  let fullKey := collection ++ ":" ++ key
  (.objV [("success", .boolV true), ("key", .strV fullKey)],
    ⟨objSet a.storage fullKey value⟩)

/-- delete: storage.delete(fullKey). -/
def delete (a : ReactNativeStorageAdapter) (collection key : String)
    (_options : StorageOptions) : JsValue × ReactNativeStorageAdapter :=
  let fullKey := collection ++ ":" ++ key
  (.objV [("success", .boolV true), ("deleted", .strV fullKey)],
    ⟨objDel a.storage fullKey⟩)

/-- query: iterates the store in insertion order, keeps entries under the
collection: prefix that satisfy the predicate. -/
def query (a : ReactNativeStorageAdapter) (collection : String) (q : Obj)
    (_options : StorageOptions) : JsValue :=
  let pre := collection ++ ":"
  .arrV ((a.storage.filter (fun p => strStartsWith p.1 pre && matchesQuery q p.2)).map
    (fun p => spreadRecord (replaceFirst p.1 pre) p.2))

end ReactNativeStorageAdapter

/-- NodeJSStorageAdapter: one JSON file per (collection, key) under dataDir,
modelled as the directory listing filename ↦ parsed contents; filesystem
errors are outside the model. -/
structure NodeJSStorageAdapter where
  files : List (String × JsValue) := []

namespace NodeJSStorageAdapter

/-- getFilePath: collection_key.json (dataDir elided). -/
def getFilePath (collection key : String) : String :=
  collection ++ "_" ++ key ++ ".json"

/-- get: read and parse the file when it exists, null otherwise. -/
def get (a : NodeJSStorageAdapter) (collection key : String)
    (_options : StorageOptions) : JsValue :=
  match objGet a.files (getFilePath collection key) with
  | some v => v
  | none => .nullV

/-- set: write the file; returns \x7b success: true, key \x7d (filePath and
timestamp fields omitted, see header). -/
def set (a : NodeJSStorageAdapter) (collection key : String) (value : JsValue)
    (_options : StorageOptions) : JsValue × NodeJSStorageAdapter :=
  (.objV [("success", .boolV true), ("key", .strV key)],
    ⟨objSet a.files (getFilePath collection key) value⟩)

/-- delete: unlink the file when present; success either way. -/
def delete (a : NodeJSStorageAdapter) (collection key : String)
    (_options : StorageOptions) : JsValue × NodeJSStorageAdapter :=
  (.objV [("success", .boolV true), ("deleted", .strV key)],
    ⟨objDel a.files (getFilePath collection key)⟩)

/-- query: enumerate the directory, keep files with the collection_ prefix,
apply the predicate, and recover each file's key by stripping the first
occurrences of the prefix and of .json. -/
def query (a : NodeJSStorageAdapter) (collection : String) (q : Obj)
    (_options : StorageOptions) : JsValue :=
  let pre := collection ++ "_"
  let collectionFiles := a.files.filter (fun p => strStartsWith p.1 pre)
  let results := collectionFiles.filter (fun p => matchesQuery q p.2)
  .arrV (results.map
    (fun p => spreadRecord (replaceFirst (replaceFirst p.1 pre) ".json") p.2))

end NodeJSStorageAdapter

/-! ## The broker (WebSocketDataServer) -/

/-- Broker-side per-connection session state: the generated clientId and the
insertion-ordered subscription set (a JS Set of collection:pattern strings).
The modelled connections are open (sendMessage's readyState check passes). -/
structure Session where
  clientId : String
  subscriptions : List String
  deriving DecidableEq

/-- The string under which a (collection, pattern) pair is held: the plain
concatenation collection ++ ":" ++ pattern. -/
def subscriptionKey (collection pattern : String) : String :=
  collection ++ ":" ++ pattern

/-- Whether a session's subscription set matches a mutated (collection, key):
it holds the exact key or the collection's wildcard. -/
def Session.subMatches (s : Session) (collection key : String) : Bool :=
  s.subscriptions.contains (subscriptionKey collection key) ||
    s.subscriptions.contains (subscriptionKey collection "*")

/-- A SUBSCRIPTION_UPDATE envelope (type tag and timestamp elided). -/
structure UpdateMsg where
  collection : String
  key : String
  operation : String
  value : JsValue

/-- notifySubscribers: walks activeConnections, skips the originator, and
sends one SUBSCRIPTION_UPDATE to every connection holding the exact or the
wildcard subscription.  The result lists (recipient clientId, envelope)
pairs in connection order. -/
def notifySubscribers (activeConnections : List Session) (collection key operation : String)
    (value : JsValue) (originClientId : String) : List (String × UpdateMsg) :=
  let subKey := subscriptionKey collection key
  let wildcardKey := subscriptionKey collection "*"
  activeConnections.filterMap (fun ws =>
    if ws.clientId == originClientId then none
    else if ws.subscriptions.contains subKey || ws.subscriptions.contains wildcardKey then
      some (ws.clientId, ⟨collection, key, operation, value⟩)
    else none)

/-- handleSubscribe: adds collection:pattern to the session's set and returns
\x7b subscribed: key \x7d. -/
def handleSubscribe (ws : Session) (collection pattern : String) : JsValue × Session :=
  let key := subscriptionKey collection pattern
  (.objV [("subscribed", .strV key)],
    { ws with subscriptions := setAdd ws.subscriptions key })

/-- handleUnsubscribe: removes collection:pattern from the session's set
(Set.delete's boolean result is discarded) and returns
\x7b unsubscribed: key \x7d unconditionally. -/
def handleUnsubscribe (ws : Session) (collection pattern : String) : JsValue × Session :=
  let key := subscriptionKey collection pattern
  (.objV [("unsubscribed", .strV key)],
    { ws with subscriptions := setDel ws.subscriptions key })

mutual

/-- Request payloads; each constructor carries the fields the matching
handler destructures.  BATCH operations nest payloads. -/
inductive Payload where
  | get (collection key : String) (options : StorageOptions)
  | set (collection key : String) (value : JsValue) (options : StorageOptions)
  | del (collection key : String) (options : StorageOptions)
  | query (collection : String) (q : Obj) (options : StorageOptions)
  | batch (operations : List BatchOp)
  | ping
  | sub (collection pattern : String)
  | unsub (collection pattern : String)

/-- One BATCH sub-operation: \x7b id, type, payload \x7d. -/
inductive BatchOp where
  | mk (id : String) (type : String) (payload : Payload)

end

/-- The sub-operation's id field. -/
def BatchOp.id : BatchOp → String
  | .mk i _ _ => i

/-- The sub-operation's type field. -/
def BatchOp.type : BatchOp → String
  | .mk _ t _ => t

/-- The sub-operation's payload field. -/
def BatchOp.payload : BatchOp → Payload
  | .mk _ _ p => p

/-- The message types registered in setupMessageHandlers, in registration
order; messageHandlers.get(t) succeeds exactly for these. -/
def knownTypes : List String :=
  ["GET", "SET", "DELETE", "QUERY", "BATCH", "PING", "SUBSCRIBE", "UNSUBSCRIBE"]

/-- Successful outcome of one handler invocation: the handler's return value,
the mutated adapter and session, and the notifications fanned out to other
connections while it ran. -/
structure RunOk where
  result : JsValue
  adapter : BrowserStorageAdapter
  ws : Session
  updates : List (String × UpdateMsg)

/-- Successful outcome of handleBatch's loop: the accumulated
(operation id, result) entries plus the final adapter/session/notifications. -/
structure BatchOk where
  entries : List (String × JsValue)
  adapter : BrowserStorageAdapter
  ws : Session
  updates : List (String × UpdateMsg)

mutual

/-- One handler invocation (the browser platform's adapter, as every claim
about dispatch is adapter-generic).  SET and DELETE notify subscribers after
the adapter call; the catch-all arm is unreachable for messages whose payload
matches their type, which is every message a client constructs. -/
def runOp (type : String) (p : Payload) (adapter : BrowserStorageAdapter)
    (ws : Session) (conns : List Session) : Except String RunOk :=
  match type, p with
  | "GET", .get c k o => .ok ⟨adapter.get c k o, adapter, ws, []⟩
  | "SET", .set c k v o =>
      let r := adapter.set c k v o
      .ok ⟨r.1, r.2, ws, notifySubscribers conns c k "SET" v ws.clientId⟩
  | "DELETE", .del c k o =>
      let r := adapter.delete c k o
      .ok ⟨r.1, r.2, ws, notifySubscribers conns c k "DELETE" .nullV ws.clientId⟩
  | "QUERY", .query c q o => .ok ⟨adapter.query c q o, adapter, ws, []⟩
  | "BATCH", .batch ops =>
      match handleBatchList ops adapter ws conns with
      | .error e => .error e
      | .ok acc =>
          .ok ⟨.arrV (acc.entries.map (fun e =>
                  .objV [("operation", .strV e.1), ("result", e.2)])),
               acc.adapter, acc.ws, acc.updates⟩
  | "PING", .ping => .ok ⟨.objV [("pong", .boolV true)], adapter, ws, []⟩
  | "SUBSCRIBE", .sub c pat =>
      let r := handleSubscribe ws c pat
      .ok ⟨r.1, adapter, r.2, []⟩
  | "UNSUBSCRIBE", .unsub c pat =>
      let r := handleUnsubscribe ws c pat
      .ok ⟨r.1, adapter, r.2, []⟩
  | _, _ => .error "payload shape mismatch"
termination_by sizeOf p

/-- handleBatch's loop: looks each sub-operation's type up in the handler
table; a registered handler runs (its failure aborts the whole batch, there
is no per-operation catch), an unregistered type is skipped without an entry. -/
def handleBatchList (ops : List BatchOp) (adapter : BrowserStorageAdapter)
    (ws : Session) (conns : List Session) : Except String BatchOk :=
  match ops with
  | [] => .ok ⟨[], adapter, ws, []⟩
  | .mk i t p :: rest =>
      if knownTypes.contains t then
        match runOp t p adapter ws conns with
        | .error e => .error e
        | .ok r =>
            match handleBatchList rest r.adapter r.ws conns with
            | .error e => .error e
            | .ok acc => .ok ⟨(i, r.result) :: acc.entries, acc.adapter, acc.ws,
                              r.updates ++ acc.updates⟩
      else handleBatchList rest adapter ws conns
termination_by sizeOf ops

end

/-- A parsed inbound envelope: \x7b type, requestId, payload \x7d. -/
structure InMessage where
  type : String
  requestId : Option Nat
  payload : Payload

/-- A raw inbound frame: either not valid JSON or a well-formed envelope. -/
inductive RawFrame where
  | malformed
  | wellFormed (message : InMessage)

/-- JSON.parse on a raw frame; deterministic, so both parse sites in
handleMessage agree on the same frame. -/
def jsonParse : RawFrame → Except String InMessage
  | .malformed => .error "Unexpected token in JSON"
  | .wellFormed m => .ok m

/-- An outbound response envelope (timestamp elided). -/
structure OutMessage where
  type : String
  requestId : Option Nat
  success : Bool
  data : Option JsValue := none
  error : Option String := none

/-- Observable outcome of one handleMessage invocation: the new adapter and
session, the reply sent to the requesting connection (none when nothing was
sent), the notifications sent to other connections, whether the error logger
ran, the exception escaping the async handler (none when it returned), and
whether the handler closed the connection (it never does). -/
structure StepResult where
  adapter : BrowserStorageAdapter
  ws : Session
  reply : Option OutMessage
  updates : List (String × UpdateMsg)
  logged : Bool
  escaped : Option String
  closedConn : Bool

/-- The catch block: logs, then re-parses the raw frame to read its
requestId.  On a well-formed frame it sends the ERROR envelope; on a
malformed frame the second JSON.parse throws and the exception escapes the
handler.  Every error the modelled handlers raise precedes any adapter or
session mutation, so returning the incoming adapter/ws is faithful. -/
def catchBranch (adapter : BrowserStorageAdapter) (ws : Session) (data : RawFrame)
    (e : String) : StepResult :=
  match jsonParse data with
  | .ok m => ⟨adapter, ws, some ⟨"ERROR", m.requestId, false, none, some e⟩, [], true, none, false⟩
  | .error pe => ⟨adapter, ws, none, [], true, some pe, false⟩

/-- handleMessage: parse the frame, look the handler up by type (unknown
types throw "Unknown message type: X" into the catch block), run it, and send
TYPE_RESPONSE with the request's requestId; any throw lands in catchBranch. -/
def handleMessage (adapter : BrowserStorageAdapter) (ws : Session) (conns : List Session)
    (data : RawFrame) : StepResult :=
  match jsonParse data with
  | .error e => catchBranch adapter ws data e
  | .ok message =>
      if knownTypes.contains message.type then
        match runOp message.type message.payload adapter ws conns with
        | .ok r => ⟨r.adapter, r.ws,
            some ⟨message.type ++ "_RESPONSE", message.requestId, true, some r.result, none⟩,
            r.updates, false, none, false⟩
        | .error e => catchBranch adapter ws data e
      else catchBranch adapter ws data ("Unknown message type: " ++ message.type)

/-- getPlatformCapabilities: the JS read capabilities[platform] on the
object literal consults Object.prototype, so a platform string naming a
prototype member (reachable through the x-platform header) yields the
inherited truthy member, which the || keeps; an own entry is a nonempty,
truthy array; only a falsy read (undefined, for every other string) falls
through to ['memory']. -/
def getPlatformCapabilities (platform : String) : JsValue :=
  let capabilities : Obj := [
    ("browser", .arrV [.strV "localStorage", .strV "indexedDB", .strV "sessionStorage"]),
    ("react-native", .arrV [.strV "asyncStorage", .strV "sqlite", .strV "secureStorage"]),
    ("nodejs", .arrV [.strV "filesystem", .strV "sqlite", .strV "memory"])]
  match jsObjectRead capabilities platform with
  | some v => if v.truthy then v else .arrV [.strV "memory"]
  | none => .arrV [.strV "memory"]

/-- The CONNECTION_ESTABLISHED welcome envelope. -/
structure WelcomeMessage where
  clientId : String
  platform : String
  capabilities : JsValue

/-- The welcome envelope built on accept: capabilities come from
getPlatformCapabilities alone. -/
def mkWelcome (clientId platform : String) : WelcomeMessage :=
  ⟨clientId, platform, getPlatformCapabilities platform⟩

/-! ## The client (WebSocketDataClient) -/

/-- Client-side state relevant to disconnection: the connected flag, the
reconnect counters, and the requestIds registered in the pendingRequests
table (each holding a live \x7b resolve, reject \x7d pair). -/
structure ClientState where
  isConnected : Bool
  reconnectAttempts : Nat
  maxReconnectAttempts : Nat
  pendingRequests : List Nat
  deriving DecidableEq

/-- Externally observable client actions. -/
inductive ClientEvent where
  | disconnected (code : Nat)
  | rejectedRequest (id : Nat) (message : String)
  | scheduledReconnect (attempt : Nat)
  deriving DecidableEq

/-- Whether an event fails some caller's pending request. -/
def ClientEvent.isRejection : ClientEvent → Bool
  | .rejectedRequest _ _ => true
  | _ => false

/-- attemptReconnect: below the cap, bumps the counter and schedules a
delayed connect; at the cap it only reports exhaustion. -/
def attemptReconnect (st : ClientState) : ClientState × List ClientEvent :=
  if st.reconnectAttempts ≥ st.maxReconnectAttempts then (st, [])
  else ({ st with reconnectAttempts := st.reconnectAttempts + 1 },
        [.scheduledReconnect (st.reconnectAttempts + 1)])

/-- The ws.onclose handler: clears isConnected, emits disconnected, and for
an unclean close below the attempt cap schedules a reconnect.  It never
touches pendingRequests. -/
def onClose (st : ClientState) (code : Nat) : ClientState × List ClientEvent :=
  let st1 : ClientState := { st with isConnected := false }
  if code ≠ 1000 ∧ st1.reconnectAttempts < st1.maxReconnectAttempts then
    let r := attemptReconnect st1
    (r.1, .disconnected code :: r.2)
  else (st1, [.disconnected code])

/-- The ws.onopen handler after a (re)connect: marks the client connected and
resets the attempt counter.  The returned list holds the requestIds of
pending requests it re-sends: there are none, nothing is replayed. -/
def onOpen (st : ClientState) : ClientState × List Nat :=
  ({ st with isConnected := true, reconnectAttempts := 0 }, [])

/-- The 30 s request timer of sendMessage firing for a requestId: an entry
still pending is removed and its caller failed with "Request timeout". -/
def requestTimeout (st : ClientState) (id : Nat) : ClientState × List ClientEvent :=
  if st.pendingRequests.contains id then
    ({ st with pendingRequests := setDel st.pendingRequests id },
     [.rejectedRequest id "Request timeout"])
  else (st, [])

theorem objGet_objSet_self {α : Type} (l : List (String × α)) (k : String) (v : α) :
    objGet (objSet l k v) k = some v := by
  induction l with
  | nil => simp [objSet, objGet, List.find?]
  | cons p rest ih =>
      obtain ⟨k', v'⟩ := p
      by_cases h : k' = k
      · simp [objSet, objGet, List.find?, h]
      · simp only [objSet, objGet, List.find?] at ih ⊢
        simp [h, ih]

theorem objGet_objDel_self {α : Type} (l : List (String × α)) (k : String) :
    objGet (objDel l k) k = none := by
  induction l with
  | nil => simp [objDel, objGet, List.find?]
  | cons p rest ih =>
      obtain ⟨k', v'⟩ := p
      by_cases h : k' = k
      · simp only [objDel, objGet] at ih ⊢
        simp [h, ih]
      · simp only [objDel, objGet, List.find?] at ih ⊢
        simp [h, ih]

/-- Whether an Except carries a success. -/
def exceptIsOk {e a : Type} : Except e a → Bool
  | .ok _ => true
  | .error _ => false

/-- The operation ids of a successful batch outcome, in result order (none
when the batch aborted with an error). -/
def exceptBatchIds : Except String BatchOk → Option (List String)
  | .ok acc => some (acc.entries.map Prod.fst)
  | .error _ => none

/-! ## Supporting lemmas -/

theorem storageFor_withStorage (a : BrowserStorageAdapter) (o : StorageOptions) (st : Store) :
    (a.withStorage o st).storageFor o = st := by
  cases o with
  | mk b => cases b <;> simp [BrowserStorageAdapter.withStorage, BrowserStorageAdapter.storageFor]

theorem setDel_of_not_contains {α : Type} [BEq α] [LawfulBEq α] (l : List α) (x : α)
    (h : l.contains x = false) : setDel l x = l := by
  have hx : x ∉ l := by simpa using h
  apply List.filter_eq_self.mpr
  intro y hy
  exact bne_iff_ne.mpr (fun he => hx (he ▸ hy))

theorem contains_setAdd_self {α : Type} [BEq α] [LawfulBEq α] (l : List α) (x : α) :
    (setAdd l x).contains x = true := by
  by_cases h : l.contains x = true
  · rw [setAdd, if_pos h]
    exact h
  · rw [setAdd, if_neg h]
    simp

theorem matchesQuery_nil (row : JsValue) : matchesQuery [] row = true := rfl

theorem jsOrNull_jsObjectRead_none (k : String) (o : Obj) (h : objGet o k = none) :
    jsOrNull (jsObjectRead o k)
      = (if objectPrototypeMembers.contains k then .protoMemberV k else .nullV) := by
  simp only [jsObjectRead, h]
  by_cases hp : k ∈ objectPrototypeMembers
  · simp [hp, jsOrNull, JsValue.truthy]
  · simp [hp, jsOrNull]

/-! ## Claim theorems -/

/-- C2 counterexample: on the BrowserStorageAdapter, SET of the value 0 on
("c", "k") followed by GET with the same options returns null rather than 0
(get ends in collectionData[key] || null and 0 is falsy), and DELETE of
("c", "constructor") followed by GET returns the truthy constructor member
inherited from Object.prototype rather than null. -/
theorem c2_set_get_counterexample :
    BrowserStorageAdapter.get
        (BrowserStorageAdapter.set ⟨[], []⟩ "c" "k" (.numV 0) ⟨false⟩).2 "c" "k" ⟨false⟩
      = .nullV
    ∧ BrowserStorageAdapter.get
        (BrowserStorageAdapter.set ⟨[], []⟩ "c" "k" (.numV 0) ⟨false⟩).2 "c" "k" ⟨false⟩
      ≠ .numV 0
    ∧ BrowserStorageAdapter.get
        (BrowserStorageAdapter.delete ⟨[], []⟩ "c" "constructor" ⟨false⟩).2
        "c" "constructor" ⟨false⟩
      = .protoMemberV "constructor"
    ∧ BrowserStorageAdapter.get
        (BrowserStorageAdapter.delete ⟨[], []⟩ "c" "constructor" ⟨false⟩).2
        "c" "constructor" ⟨false⟩
      ≠ .nullV := by
  refine ⟨rfl, ?_, rfl, ?_⟩
  · intro h
    exact JsValue.noConfusion (show JsValue.nullV = JsValue.numV 0 from h)
  · intro h
    exact JsValue.noConfusion (show JsValue.protoMemberV "constructor" = JsValue.nullV from h)

/-- C2 (amended): for keys other than __proto__ (whose assignment semantics
the model excludes), SET then GET with the same options on the
BrowserStorageAdapter returns the stored value when it is JS-truthy and null
when it is falsy, and DELETE then GET returns null unless the key names an
Object.prototype member, in which case the read returns that inherited
truthy member; on the ReactNativeStorageAdapter (a Map, no prototype chain)
SET then GET returns the stored value and DELETE then GET returns null, for
every value. -/
theorem c2_roundtrip (a : BrowserStorageAdapter) (rn : ReactNativeStorageAdapter)
    (c k : String) (v w : JsValue) (o : StorageOptions) (_hk : k ≠ "__proto__") :
    BrowserStorageAdapter.get (BrowserStorageAdapter.set a c k v o).2 c k o
      = (if v.truthy then v else .nullV)
    ∧ BrowserStorageAdapter.get (BrowserStorageAdapter.delete a c k o).2 c k o
      = (if objectPrototypeMembers.contains k then .protoMemberV k else .nullV)
    ∧ ReactNativeStorageAdapter.get (ReactNativeStorageAdapter.set rn c k w o).2 c k o = w
    ∧ ReactNativeStorageAdapter.get (ReactNativeStorageAdapter.delete rn c k o).2 c k o
      = .nullV := by
  refine ⟨?_, ?_, ?_, ?_⟩
  · simp [BrowserStorageAdapter.get, BrowserStorageAdapter.set, storageFor_withStorage,
      objGet_objSet_self, jsObjectRead, jsOrNull]
  · simp only [BrowserStorageAdapter.delete]
    cases hcd : objGet (a.storageFor o) c with
    | some cd =>
        simp only [hcd]
        simp only [BrowserStorageAdapter.get, storageFor_withStorage, objGet_objSet_self,
          Option.getD_some]
        exact jsOrNull_jsObjectRead_none k (objDel cd k) (objGet_objDel_self cd k)
    | none =>
        simp only [BrowserStorageAdapter.get, hcd, Option.getD_none]
        exact jsOrNull_jsObjectRead_none k [] rfl
  · simp [ReactNativeStorageAdapter.get, ReactNativeStorageAdapter.set, objGet_objSet_self]
  · simp [ReactNativeStorageAdapter.get, ReactNativeStorageAdapter.delete, objGet_objDel_self]

/-- C2 witness: the amended laws at a falsy value, a truthy value, and a
prototype-named key. -/
theorem c2_roundtrip_witness :
    ("k" : String) ≠ "__proto__"
    ∧ BrowserStorageAdapter.get
        (BrowserStorageAdapter.set ⟨[], []⟩ "c" "k" (.numV 0) ⟨false⟩).2 "c" "k" ⟨false⟩
      = .nullV
    ∧ BrowserStorageAdapter.get
        (BrowserStorageAdapter.set ⟨[], []⟩ "c" "k" (.strV "x") ⟨false⟩).2 "c" "k" ⟨false⟩
      = .strV "x"
    ∧ BrowserStorageAdapter.get
        (BrowserStorageAdapter.delete ⟨[], []⟩ "c" "toString" ⟨false⟩).2
        "c" "toString" ⟨false⟩
      = .protoMemberV "toString" := by
  have h1 := (c2_roundtrip ⟨[], []⟩ ⟨[]⟩ "c" "k" (.numV 0) (.numV 0) ⟨false⟩ (by decide)).1
  have h2 := (c2_roundtrip ⟨[], []⟩ ⟨[]⟩ "c" "k" (.strV "x") (.numV 0) ⟨false⟩ (by decide)).1
  have h3 := (c2_roundtrip ⟨[], []⟩ ⟨[]⟩ "c" "toString" (.numV 0) (.numV 0) ⟨false⟩
      (by decide)).2.1
  exact ⟨by decide, h1.trans rfl, h2.trans rfl, h3.trans rfl⟩

/-- C8 counterexample: the platform string "constructor" — reachable, since
detectPlatform returns any x-platform header verbatim — makes
capabilities[platform] hit the inherited truthy Object.prototype.constructor,
so getPlatformCapabilities returns that member, not ["memory"]. -/
theorem c8_capability_counterexample :
    getPlatformCapabilities "constructor" = .protoMemberV "constructor"
    ∧ getPlatformCapabilities "constructor" ≠ .arrV [.strV "memory"] := by
  refine ⟨rfl, ?_⟩
  intro h
  exact JsValue.noConfusion
    (show JsValue.protoMemberV "constructor" = .arrV [.strV "memory"] from h)

/-- C8 (amended): the capability value advertised on welcome is a pure
function of the platform; browser, react-native and nodejs map to the fixed
table, any other platform string that does not name an Object.prototype
member maps to ["memory"], and a platform string naming an Object.prototype
member yields that inherited truthy member instead of ["memory"]. -/
theorem c8_capability_table :
    getPlatformCapabilities "browser"
      = .arrV [.strV "localStorage", .strV "indexedDB", .strV "sessionStorage"]
    ∧ getPlatformCapabilities "react-native"
      = .arrV [.strV "asyncStorage", .strV "sqlite", .strV "secureStorage"]
    ∧ getPlatformCapabilities "nodejs"
      = .arrV [.strV "filesystem", .strV "sqlite", .strV "memory"]
    ∧ (∀ clientId platform, (mkWelcome clientId platform).capabilities
        = getPlatformCapabilities platform)
    ∧ (∀ p : String, p ≠ "browser" → p ≠ "react-native" → p ≠ "nodejs" →
        objectPrototypeMembers.contains p = false →
        getPlatformCapabilities p = .arrV [.strV "memory"])
    ∧ ∀ p : String, p ≠ "browser" → p ≠ "react-native" → p ≠ "nodejs" →
        objectPrototypeMembers.contains p = true →
        getPlatformCapabilities p = .protoMemberV p := by
  refine ⟨rfl, rfl, rfl, fun _ _ => rfl, ?_, ?_⟩
  · intro p h1 h2 h3 hp
    have e1 : (("browser" : String) == p) = false :=
      beq_eq_false_iff_ne.mpr (fun he => h1 he.symm)
    have e2 : (("react-native" : String) == p) = false :=
      beq_eq_false_iff_ne.mpr (fun he => h2 he.symm)
    have e3 : (("nodejs" : String) == p) = false :=
      beq_eq_false_iff_ne.mpr (fun he => h3 he.symm)
    have hp' : p ∉ objectPrototypeMembers := by simpa using hp
    simp [getPlatformCapabilities, jsObjectRead, objGet, List.find?, e1, e2, e3, hp']
  · intro p h1 h2 h3 hp
    have e1 : (("browser" : String) == p) = false :=
      beq_eq_false_iff_ne.mpr (fun he => h1 he.symm)
    have e2 : (("react-native" : String) == p) = false :=
      beq_eq_false_iff_ne.mpr (fun he => h2 he.symm)
    have e3 : (("nodejs" : String) == p) = false :=
      beq_eq_false_iff_ne.mpr (fun he => h3 he.symm)
    have hp' : p ∈ objectPrototypeMembers := by simpa using hp
    simp [getPlatformCapabilities, jsObjectRead, objGet, List.find?, e1, e2, e3, hp',
      JsValue.truthy]

/-- C8 witness: an unlisted non-prototype platform gets ["memory"]; the
prototype member name "toString" gets the inherited member. -/
theorem c8_capability_table_witness :
    getPlatformCapabilities "ios" = .arrV [.strV "memory"]
    ∧ getPlatformCapabilities "toString" = .protoMemberV "toString" := by
  constructor
  · exact c8_capability_table.2.2.2.2.1 "ios" (by decide) (by decide) (by decide) (by rfl)
  · exact c8_capability_table.2.2.2.2.2 "toString" (by decide) (by decide) (by decide) (by rfl)

/-- C9: subscription matching compares only the concatenation
collection ++ ":" ++ pattern, so the distinct pairs ("a", "b:c") and
("a:b", "c") alias: a session subscribed to collection "a", pattern "b:c"
is matched by — and receives the SUBSCRIPTION_UPDATE for — a mutation on
collection "a:b", key "c". -/
theorem c9_subscription_key_aliasing :
    subscriptionKey "a" "b:c" = subscriptionKey "a:b" "c"
    ∧ (handleSubscribe ⟨"B", []⟩ "a" "b:c").2 = ⟨"B", ["a:b:c"]⟩
    ∧ notifySubscribers [(handleSubscribe ⟨"B", []⟩ "a" "b:c").2] "a:b" "c" "SET" (.numV 1) "A"
        = [("B", ⟨"a:b", "c", "SET", .numV 1⟩)]
    ∧ ∀ (s : Session) (c1 p1 c2 k2 : String),
        subscriptionKey c1 p1 = subscriptionKey c2 k2 →
        ((handleSubscribe s c1 p1).2).subMatches c2 k2 = true := by
  refine ⟨rfl, rfl, rfl, ?_⟩
  intro s c1 p1 c2 k2 he
  have hc := contains_setAdd_self (α := String) s.subscriptions (subscriptionKey c1 p1)
  simp only [handleSubscribe, Session.subMatches, ← he]
  rw [hc, Bool.true_or]

/-- C9 witness: the aliasing law at the concrete pairs of the claim. -/
theorem c9_subscription_key_aliasing_witness :
    ((handleSubscribe ⟨"B", []⟩ "a" "b:c").2).subMatches "a:b" "c" = true :=
  c9_subscription_key_aliasing.2.2.2 ⟨"B", []⟩ "a" "b:c" "a:b" "c" rfl

/-- C10: the empty predicate matches every row (the conjunction over zero
fields is true), so query with an empty predicate returns one
key-plus-fields record per stored key of the collection, on the browser, the
react-native and the nodejs adapters. -/
theorem c10_empty_query_matches_all (a : BrowserStorageAdapter)
    (rn : ReactNativeStorageAdapter) (n : NodeJSStorageAdapter)
    (c : String) (o : StorageOptions) :
    (∀ row, matchesQuery [] row = true)
    ∧ BrowserStorageAdapter.query a c [] o
      = .arrV (((objGet (a.storageFor o) c).getD []).map (fun kv => spreadRecord kv.1 kv.2))
    ∧ ReactNativeStorageAdapter.query rn c [] o
      = .arrV ((rn.storage.filter (fun p => strStartsWith p.1 (c ++ ":"))).map
          (fun p => spreadRecord (replaceFirst p.1 (c ++ ":")) p.2))
    ∧ NodeJSStorageAdapter.query n c [] o
      = .arrV ((n.files.filter (fun p => strStartsWith p.1 (c ++ "_"))).map
          (fun p => spreadRecord (replaceFirst (replaceFirst p.1 (c ++ "_")) ".json") p.2)) := by
  refine ⟨fun _ => rfl, ?_, ?_, ?_⟩ <;>
    simp [BrowserStorageAdapter.query, ReactNativeStorageAdapter.query,
      NodeJSStorageAdapter.query, matchesQuery]

/-- C4 counterexample: on a frame that is not valid JSON the handler logs and
sends nothing, but the second JSON.parse inside the catch block (evaluated to
read the frame's requestId for the ERROR reply) throws again, so a parse
exception escapes handleMessage as a rejected promise. -/
theorem c4_malformed_counterexample :
    (handleMessage ⟨[], []⟩ ⟨"A", []⟩ [] .malformed).escaped
      = some "Unexpected token in JSON" := rfl

/-- C4 (amended): on an invalid-JSON frame the broker logs and drops the
frame — no reply, no notification, no state change, and the handler does not
close the connection — but the JSON parse error re-raised inside the catch
block escapes the message handler. -/
theorem c4_malformed_frame (adapter : BrowserStorageAdapter) (ws : Session)
    (conns : List Session) :
    handleMessage adapter ws conns .malformed
      = ⟨adapter, ws, none, [], true, some "Unexpected token in JSON", false⟩ := rfl

/-- C7: an inbound envelope whose type has no registered handler draws an
ERROR envelope carrying the request's requestId and the message
"Unknown message type: X", with the connection left open and no state
change. -/
theorem c7_unknown_type (adapter : BrowserStorageAdapter) (ws : Session)
    (conns : List Session) (m : InMessage) (h : knownTypes.contains m.type = false) :
    handleMessage adapter ws conns (.wellFormed m)
      = ⟨adapter, ws,
          some ⟨"ERROR", m.requestId, false, none,
            some ("Unknown message type: " ++ m.type)⟩,
          [], true, none, false⟩ := by
  have h' : m.type ∉ knownTypes := by simpa using h
  simp [handleMessage, jsonParse, catchBranch, h']

/-- C7 witness: the unknown type "FOO" with requestId 7. -/
theorem c7_unknown_type_witness :
    handleMessage ⟨[], []⟩ ⟨"A", []⟩ [] (.wellFormed ⟨"FOO", some 7, .ping⟩)
      = ⟨⟨[], []⟩, ⟨"A", []⟩,
          some ⟨"ERROR", some 7, false, none, some "Unknown message type: FOO"⟩,
          [], true, none, false⟩ :=
  c7_unknown_type ⟨[], []⟩ ⟨"A", []⟩ [] ⟨"FOO", some 7, .ping⟩ (by rfl)

/-- C5 counterexample: a session holding no subscriptions at all issues
UNSUBSCRIBE for ("c", "k"); the broker replies with success, not failure
(Set.delete's boolean result is discarded), though the set is unchanged. -/
theorem c5_unsubscribe_counterexample :
    (handleMessage ⟨[], []⟩ ⟨"A", []⟩ []
        (.wellFormed ⟨"UNSUBSCRIBE", some 1, .unsub "c" "k"⟩)).reply
      = some ⟨"UNSUBSCRIBE_RESPONSE", some 1, true,
          some (.objV [("unsubscribed", .strV "c:k")]), none⟩
    ∧ (handleMessage ⟨[], []⟩ ⟨"A", []⟩ []
        (.wellFormed ⟨"UNSUBSCRIBE", some 1, .unsub "c" "k"⟩)).ws
      = ⟨"A", []⟩ := by
  constructor <;>
    simp [handleMessage, runOp, jsonParse, knownTypes, handleUnsubscribe,
      subscriptionKey, setDel]

/-- C5 (amended): an UNSUBSCRIBE for a (collection, pattern) the session does
not hold succeeds — UNSUBSCRIBE_RESPONSE with success true and data
unsubscribed: collection:pattern — and the session's subscription set is
unchanged by the attempt. -/
theorem c5_unsubscribe_not_subscribed (adapter : BrowserStorageAdapter) (ws : Session)
    (conns : List Session) (c pat : String) (rid : Option Nat)
    (h : ws.subscriptions.contains (subscriptionKey c pat) = false) :
    handleMessage adapter ws conns (.wellFormed ⟨"UNSUBSCRIBE", rid, .unsub c pat⟩)
      = ⟨adapter, ws,
          some ⟨"UNSUBSCRIBE_RESPONSE", rid, true,
            some (.objV [("unsubscribed", .strV (subscriptionKey c pat))]), none⟩,
          [], false, none, false⟩ := by
  have hset := setDel_of_not_contains ws.subscriptions (subscriptionKey c pat) h
  simp [handleMessage, runOp, jsonParse, knownTypes, handleUnsubscribe, hset]

/-- C5 witness: the amended law at a concrete session with no subscriptions. -/
theorem c5_unsubscribe_not_subscribed_witness :
    handleMessage ⟨[], []⟩ ⟨"A", []⟩ []
        (.wellFormed ⟨"UNSUBSCRIBE", some 2, .unsub "c" "k2"⟩)
      = ⟨⟨[], []⟩, ⟨"A", []⟩,
          some ⟨"UNSUBSCRIBE_RESPONSE", some 2, true,
            some (.objV [("unsubscribed", .strV "c:k2")]), none⟩,
          [], false, none, false⟩ :=
  c5_unsubscribe_not_subscribed ⟨[], []⟩ ⟨"A", []⟩ [] "c" "k2" (some 2) (by rfl)

/-- C6 counterexample: a client with requestId 1 pending suffers an unclean
close (code 1006).  The close handler emits only disconnected and a
reconnect attempt — no rejection — and the pending table still holds
request 1 afterwards, so the request was not failed immediately. -/
theorem c6_onclose_counterexample :
    onClose ⟨true, 0, 10, [1]⟩ 1006
      = (⟨false, 1, 10, [1]⟩, [.disconnected 1006, .scheduledReconnect 1]) := by
  decide

/-- C6 (amended): the client's close handler leaves every pending request in
the pending-requests table and fails none of them; each such request is left
to its own 30 s timer, which fails it with "Request timeout"; and the open
handler after a reconnect re-sends nothing, so no pending request is
replayed. -/
theorem c6_pending_survive_close (st : ClientState) (code : Nat) (id : Nat)
    (hid : st.pendingRequests.contains id = true) :
    (onClose st code).1.pendingRequests = st.pendingRequests
    ∧ ((onClose st code).2.filter ClientEvent.isRejection) = []
    ∧ (onOpen (onClose st code).1).2 = []
    ∧ (requestTimeout (onClose st code).1 id).2
        = [.rejectedRequest id "Request timeout"] := by
  have hid' : id ∈ st.pendingRequests := by simpa using hid
  by_cases hc : code ≠ 1000 ∧ st.reconnectAttempts < st.maxReconnectAttempts
  · have hlt : ¬ st.reconnectAttempts ≥ st.maxReconnectAttempts := Nat.not_le.mpr hc.2
    simp [onClose, attemptReconnect, hc, hlt, ClientEvent.isRejection, requestTimeout, hid',
      onOpen]
  · simp [onClose, attemptReconnect, hc, ClientEvent.isRejection, requestTimeout, hid', onOpen]

/-- C6 witness: the amended law at the counterexample's client state. -/
theorem c6_pending_survive_close_witness :
    ([1] : List Nat).contains 1 = true
    ∧ (onClose ⟨true, 0, 10, [1]⟩ 1006).1.pendingRequests = [1]
    ∧ (requestTimeout (onClose ⟨true, 0, 10, [1]⟩ 1006).1 1).2
        = [.rejectedRequest 1 "Request timeout"] := by
  have h := c6_pending_survive_close ⟨true, 0, 10, [1]⟩ 1006 1 (by decide)
  exact ⟨by decide, h.1, h.2.2.2⟩

/-- C3 counterexample: a BATCH of two operations — the first of the
unregistered type "FOO", the second a PING — returns a result array with a
single entry, for "b" only: the unregistered operation is skipped silently,
contributing neither an \x7b operation, result \x7d entry nor a recorded
error, so the response is not one entry per input operation. -/
theorem c3_batch_counterexample :
    runOp "BATCH" (.batch [.mk "a" "FOO" .ping, .mk "b" "PING" .ping]) ⟨[], []⟩ ⟨"A", []⟩ []
      = .ok ⟨.arrV [.objV [("operation", .strV "b"),
                           ("result", .objV [("pong", .boolV true)])]],
             ⟨[], []⟩, ⟨"A", []⟩, []⟩
    ∧ [BatchOp.mk "a" "FOO" .ping, .mk "b" "PING" .ping].length = 2 := by
  refine ⟨?_, rfl⟩
  simp [runOp, handleBatchList, knownTypes]

/-- C3 (amended): batch sub-operations run in input order against the same
adapter and session with no rollback; when every sub-operation with a
registered type succeeds, the batch result carries exactly one
(operation id, result) entry per registered-type sub-operation, in input
order, while sub-operations of unregistered types are skipped without an
entry and without a recorded error. -/
theorem c3_batch_entries (ops : List BatchOp) (conns : List Session)
    (adapter : BrowserStorageAdapter) (ws : Session)
    (h : ∀ op ∈ ops, ∀ (a : BrowserStorageAdapter) (w : Session),
        knownTypes.contains op.type = true →
        exceptIsOk (runOp op.type op.payload a w conns) = true) :
    exceptBatchIds (handleBatchList ops adapter ws conns)
      = some ((ops.filter (fun op => knownTypes.contains op.type)).map BatchOp.id) := by
  induction ops generalizing adapter ws with
  | nil => simp [handleBatchList, exceptBatchIds]
  | cons op rest ih =>
      obtain ⟨i, t, p⟩ := op
      have hrest : ∀ o ∈ rest, ∀ (a : BrowserStorageAdapter) (w : Session),
          knownTypes.contains o.type = true →
          exceptIsOk (runOp o.type o.payload a w conns) = true :=
        fun o ho a w hk => h o (List.mem_cons_of_mem _ ho) a w hk
      by_cases ht : knownTypes.contains t = true
      · have hok := h ⟨i, t, p⟩ (List.mem_cons_self _ _) adapter ws ht
        cases hr : runOp t p adapter ws conns with
        | error e =>
            rw [BatchOp.type, BatchOp.payload, hr] at hok
            exact absurd hok (by simp [exceptIsOk])
        | ok r =>
            have ihr := ih r.adapter r.ws hrest
            cases hrr : handleBatchList rest r.adapter r.ws conns with
            | error e => rw [hrr] at ihr; exact absurd ihr (by simp [exceptBatchIds])
            | ok acc =>
                rw [hrr] at ihr
                simp only [exceptBatchIds, Option.some.injEq] at ihr
                have htm : t ∈ knownTypes := by simpa using ht
                simp only [handleBatchList, ht, if_true, hr, hrr]
                simp [exceptBatchIds, ihr, List.filter_cons, htm, BatchOp.type, BatchOp.id]
      · have htm : t ∉ knownTypes := by
          simpa using Bool.not_eq_true _ |>.mp ht
        simp only [handleBatchList, ht]
        have := ih adapter ws hrest
        simp [this, List.filter_cons, htm, BatchOp.type]

/-- C3 witness: a batch of SET, unknown "FOO", GET yields entries for "a"
and "b" only, in input order. -/
theorem c3_batch_entries_witness :
    exceptBatchIds (handleBatchList
        [.mk "a" "SET" (.set "c" "k" (.numV 1) ⟨false⟩), .mk "x" "FOO" .ping,
         .mk "b" "GET" (.get "c" "k" ⟨false⟩)] ⟨[], []⟩ ⟨"A", []⟩ [])
      = some ["a", "b"] := by
  have hh : ∀ op ∈ [BatchOp.mk "a" "SET" (.set "c" "k" (.numV 1) ⟨false⟩),
        BatchOp.mk "x" "FOO" .ping, BatchOp.mk "b" "GET" (.get "c" "k" ⟨false⟩)],
      ∀ (a : BrowserStorageAdapter) (w : Session),
        knownTypes.contains op.type = true →
        exceptIsOk (runOp op.type op.payload a w []) = true := by
    intro op hop a w hk
    simp only [List.mem_cons, List.not_mem_nil, or_false] at hop
    rcases hop with rfl | rfl | rfl
    · simp [runOp, exceptIsOk, BatchOp.type, BatchOp.payload]
    · exact absurd hk (by decide)
    · simp [runOp, exceptIsOk, BatchOp.type, BatchOp.payload]
  have h := c3_batch_entries
      [.mk "a" "SET" (.set "c" "k" (.numV 1) ⟨false⟩), .mk "x" "FOO" .ping,
       .mk "b" "GET" (.get "c" "k" ⟨false⟩)] [] ⟨[], []⟩ ⟨"A", []⟩ hh
  rw [h]
  rfl

theorem notify_cons (w : Session) (rest : List Session) (c k op : String)
    (v : JsValue) (origin : String) :
    notifySubscribers (w :: rest) c k op v origin
      = (if w.clientId == origin then []
         else if w.subscriptions.contains (subscriptionKey c k)
              || w.subscriptions.contains (subscriptionKey c "*") then
           [(w.clientId, ⟨c, k, op, v⟩)]
         else []) ++ notifySubscribers rest c k op v origin := by
  simp only [notifySubscribers, List.filterMap_cons]
  by_cases h1 : w.clientId = origin
  · simp [h1]
  · by_cases h2 : subscriptionKey c k ∈ w.subscriptions ∨ subscriptionKey c "*" ∈ w.subscriptions
    · simp [h1, h2]
    · simp [h1, h2]

theorem notify_filter_not_mem (conns : List Session) (c k op : String) (v : JsValue)
    (origin cid : String) (h : cid ∉ conns.map Session.clientId) :
    (notifySubscribers conns c k op v origin).filter (fun m => m.1 == cid) = [] := by
  induction conns with
  | nil => rfl
  | cons w rest ih =>
      simp only [List.map_cons, List.mem_cons, not_or] at h
      obtain ⟨h1, h2⟩ := h
      rw [notify_cons, List.filter_append, ih h2, List.append_nil]
      have hcid : w.clientId ≠ cid := fun he => h1 he.symm
      by_cases ha : w.clientId = origin
      · simp [ha]
      · by_cases hb : subscriptionKey c k ∈ w.subscriptions
            ∨ subscriptionKey c "*" ∈ w.subscriptions
        · simp [ha, hb, List.filter_cons, hcid]
        · simp [ha, hb]

theorem notify_count (conns : List Session) (c k op : String) (v : JsValue)
    (origin : String) (S : Session) :
    S ∈ conns → (conns.map Session.clientId).Nodup →
    ((notifySubscribers conns c k op v origin).filter (fun m => m.1 == S.clientId)).length
      = if S.clientId ≠ origin ∧ S.subMatches c k = true then 1 else 0 := by
  induction conns with
  | nil => intro hS _; cases hS
  | cons w rest ih =>
      intro hS hids
      simp only [List.map_cons, List.nodup_cons] at hids
      obtain ⟨hw_not, hrest⟩ := hids
      rw [notify_cons, List.filter_append, List.length_append]
      rcases List.mem_cons.mp hS with rfl | hSr
      · have hnil := notify_filter_not_mem rest c k op v origin S.clientId hw_not
        rw [hnil]
        by_cases ha : S.clientId = origin
        · simp [ha]
        · by_cases hb : subscriptionKey c k ∈ S.subscriptions
              ∨ subscriptionKey c "*" ∈ S.subscriptions
          · simp [ha, hb, List.filter_cons, Session.subMatches]
          · simp [ha, hb, Session.subMatches]
      · have hSid : S.clientId ∈ rest.map Session.clientId :=
          List.mem_map_of_mem Session.clientId hSr
        have hne : w.clientId ≠ S.clientId := fun he => hw_not (he ▸ hSid)
        have ihr := ih hSr hrest
        by_cases ha : w.clientId = origin
        · simp [ha, ihr]
        · by_cases hb : subscriptionKey c k ∈ w.subscriptions
              ∨ subscriptionKey c "*" ∈ w.subscriptions
          · simp [ha, hb, List.filter_cons, hne, ihr]
          · simp [ha, hb, ihr]

/-- C1: handling SET or DELETE on (c, k) for session ws fans the mutation out
through notifySubscribers over the live connections, and — with clientIds
unique across sessions — a session S in the connection list receives exactly
one SUBSCRIPTION_UPDATE when it currently holds (c, k) or (c, "*") (one,
even when it holds both) and is not the originator, and receives none
otherwise. -/
theorem c1_mutation_fanout (conns : List Session) (c k : String) (value : JsValue)
    (adapter : BrowserStorageAdapter) (ws S : Session) (o : StorageOptions)
    (hS : S ∈ conns) (hids : (conns.map Session.clientId).Nodup) :
    runOp "SET" (.set c k value o) adapter ws conns
      = .ok ⟨(adapter.set c k value o).1, (adapter.set c k value o).2, ws,
             notifySubscribers conns c k "SET" value ws.clientId⟩
    ∧ runOp "DELETE" (.del c k o) adapter ws conns
      = .ok ⟨(adapter.delete c k o).1, (adapter.delete c k o).2, ws,
             notifySubscribers conns c k "DELETE" .nullV ws.clientId⟩
    ∧ ∀ (operation : String) (v : JsValue) (origin : String),
        ((notifySubscribers conns c k operation v origin).filter
            (fun m => m.1 == S.clientId)).length
          = if S.clientId ≠ origin ∧ S.subMatches c k = true then 1 else 0 :=
  ⟨by simp [runOp], by simp [runOp],
   fun operation v origin => notify_count conns c k operation v origin S hS hids⟩

/-- C1 witness: two sessions; "A" holds both the exact key and the wildcard
and still receives exactly one update for a SET originated by "O"; the
originator receives none. -/
theorem c1_mutation_fanout_witness :
    ((notifySubscribers [⟨"A", ["c:k", "c:*"]⟩, ⟨"O", ["c:k"]⟩] "c" "k" "SET"
        (.numV 7) "O").filter (fun m => m.1 == "A")).length = 1 := by
  have h := (c1_mutation_fanout [⟨"A", ["c:k", "c:*"]⟩, ⟨"O", ["c:k"]⟩] "c" "k"
      (.numV 7) ⟨[], []⟩ ⟨"O", ["c:k"]⟩ ⟨"A", ["c:k", "c:*"]⟩ ⟨false⟩
      (by simp) (by simp)).2.2 "SET" (.numV 7) "O"
  simpa using h
